import Mathlib

/-!
Verification development for `valkka/live/chain/multifork.py`
(`MultiForkFilterchain`).

The Python class is shallowly embedded: the mutable instance attributes
that the verified claims touch become fields of `ChainState`; each method
becomes a pure function `ChainState → ... → ChainState × List Event`,
where the `Event` list records the calls the method issues to external
collaborators (decoder, fork filters, gates, OpenGL threads, the
ValkkaFS manager).  Debug `print` chatter is not modelled, with one
exception: the `"delViewPort : FATAL : no such port"` report, which one
claim is about, is modelled as the `Event.fatalNoSuchPort` event.

Python dictionaries (`tokens_by_port`, `shmem_terminals`,
`x_screen_count`) are modelled as association lists keyed by viewport, a
list of names, and a list of per-screen counters respectively.
-/

set_option autoImplicit false

namespace MultiFork

/-- `RecordType` enum of `multifork.py` (lines 44-47). -/
inductive RecordType where
  | never
  | movement
  | always
deriving DecidableEq

/-- `ViewPort` carries a window id and an x-screen number
(`getWindowId` / `getXScreenNum`). -/
structure ViewPort where
  window_id : Nat
  x_screen_num : Nat
deriving DecidableEq

/-- One call issued to an external collaborator. -/
inductive Event where
  | decodingOn
  | decodingOff
  | connectDecode (name : String)
  | disconnectDecode (name : String)
  | connectSws (name : String)
  | disconnectSws (name : String)
  | connectFile (name : String)
  | disconnectFile (name : String)
  | fsGateSet
  | fsGateUnSet
  | swsGateSet
  | swsGateUnSet
  | oglConnect (screen window token : Nat)
  | oglDisconnect (screen token : Nat)
  | setInput (idRec slot : Int)
  | clearInput (slot : Int)
  | setMovementCallback
  | avRequestStop
  | fatalNoSuchPort (vp : ViewPort)
deriving DecidableEq

/-- The mutable state of one `MultiForkFilterchain` instance
(attributes set in `initVars`, lines 178-200, plus the gate and edge
state of the fork/gate filters the chain owns).  `fs_gate` / `sws_gate`
are `true` when the gate is `set()` (open).  `decoding_on` mirrors
whether the AVThread's decoding output is currently enabled. -/
structure ChainState where
  slot : Int
  idst : String
  decoding_client_count : Int
  movement_client_count : Int
  sws_client_count : Int
  x_screen_count : List Int
  ports : List ViewPort
  tokens_by_port : List (ViewPort × Nat)
  next_token : Nat
  shmem_terminals : List String
  fork_filter_decode_edges : List String
  sws_fork_edges : List String
  fork_filter_file_edges : List String
  fs_gate : Bool
  sws_gate : Bool
  decoding_on : Bool
  record_type : Option RecordType
  id_rec : Option Int
  valkkafsmanager : Option Nat
  movement_cb_set : Bool
  closed : Bool
deriving DecidableEq

/-- Lookup in an association list keyed by viewport (a Python dict
access `d[k]`). -/
def alLookup : List (ViewPort × Nat) → ViewPort → Option Nat
  | [], _ => none
  | (a, b) :: t, k => if a = k then some b else alLookup t k

/-- Dict assignment `d[k] = v`: replace in place, or append. -/
def alSet : List (ViewPort × Nat) → ViewPort → Nat → List (ViewPort × Nat)
  | [], k, v => [(k, v)]
  | (a, b) :: t, k, v => if a = k then (k, v) :: t else (a, b) :: alSet t k v

/-- Dict removal `d.pop(k)`: drop the first entry with key `k`. -/
def alErase : List (ViewPort × Nat) → ViewPort → List (ViewPort × Nat)
  | [], _ => []
  | (a, b) :: t, k => if a = k then t else (a, b) :: alErase t k

/-- Number of entries with key `k`. -/
def countKey : List (ViewPort × Nat) → ViewPort → Nat
  | [], _ => 0
  | (a, _) :: t, k => (if a = k then 1 else 0) + countKey t k

/-- The keys of the association list are pairwise distinct (always true
for a Python dict). -/
def keysNodup (l : List (ViewPort × Nat)) : Prop := (l.map Prod.fst).Nodup

/-- Edge name used by `movement_client` on `fork_filter_decode`. -/
def analysisName (s : ChainState) : String := "analysis_" ++ toString s.slot

/-- Edge name used by `x_screen_client` on `fork_filter_decode`. -/
def openglName (index : Nat) : String := "openglthread_" ++ toString index

/-- Edge name used by `setRecording` on `fork_filter_file`. -/
def recorderName (s : ChainState) : String := "recorder_" ++ toString s.slot

/-- `decoding_client(inc)`, lines 437-450: enable the decoder output if
`count < 1 and inc > 0`, disable it if `count == 1 and inc < 0`, then
`count += inc` unconditionally. -/
def decoding_client (s : ChainState) (inc : Int) : ChainState × List Event :=
  let evs : List Event :=
    if s.decoding_client_count < 1 ∧ 0 < inc then [Event.decodingOn]
    else if s.decoding_client_count = 1 ∧ inc < 0 then [Event.decodingOff]
    else []
  let don : Bool :=
    if s.decoding_client_count < 1 ∧ 0 < inc then true
    else if s.decoding_client_count = 1 ∧ inc < 0 then false
    else s.decoding_on
  ({ s with decoding_client_count := s.decoding_client_count + inc,
            decoding_on := don }, evs)

/-- `movement_client(inc)`, lines 453-468: connect/disconnect the
`analysis_<slot>` edge on `fork_filter_decode` at the 0-1 crossings,
`count += inc`, then forward `inc` to `decoding_client`. -/
def movement_client (s : ChainState) (inc : Int) : ChainState × List Event :=
  let edges : List String :=
    if s.movement_client_count < 1 ∧ 0 < inc then
      analysisName s :: s.fork_filter_decode_edges
    else if s.movement_client_count = 1 ∧ inc < 0 then
      s.fork_filter_decode_edges.erase (analysisName s)
    else s.fork_filter_decode_edges
  let evs : List Event :=
    if s.movement_client_count < 1 ∧ 0 < inc then [Event.connectDecode (analysisName s)]
    else if s.movement_client_count = 1 ∧ inc < 0 then [Event.disconnectDecode (analysisName s)]
    else []
  let s2 : ChainState :=
    { s with fork_filter_decode_edges := edges,
             movement_client_count := s.movement_client_count + inc }
  let r := decoding_client s2 inc
  (r.1, evs ++ r.2)

/-- `sws_client(inc)`, lines 471-485: open/close `sws_gate` at the 0-1
crossings, `count += inc`, then forward `inc` to `movement_client`. -/
def sws_client (s : ChainState) (inc : Int) : ChainState × List Event :=
  let gate : Bool :=
    if s.sws_client_count < 1 ∧ 0 < inc then true
    else if s.sws_client_count = 1 ∧ inc < 0 then false
    else s.sws_gate
  let evs : List Event :=
    if s.sws_client_count < 1 ∧ 0 < inc then [Event.swsGateSet]
    else if s.sws_client_count = 1 ∧ inc < 0 then [Event.swsGateUnSet]
    else []
  let s2 : ChainState :=
    { s with sws_gate := gate,
             sws_client_count := s.sws_client_count + inc }
  let r := movement_client s2 inc
  (r.1, evs ++ r.2)

/-- `x_screen_client(index, inc)`, lines 488-495: connect/disconnect
the `openglthread_<index>` edge on `fork_filter_decode` at the 0-1
crossings of the per-screen counter, `count[index] += inc`, then
forward `inc` to `decoding_client` (not through `movement_client`). -/
def x_screen_client (s : ChainState) (index : Nat) (inc : Int) : ChainState × List Event :=
  let c : Int := s.x_screen_count.getD index 0
  let edges : List String :=
    if c < 1 ∧ 0 < inc then openglName index :: s.fork_filter_decode_edges
    else if c = 1 ∧ inc < 0 then s.fork_filter_decode_edges.erase (openglName index)
    else s.fork_filter_decode_edges
  let evs : List Event :=
    if c < 1 ∧ 0 < inc then [Event.connectDecode (openglName index)]
    else if c = 1 ∧ inc < 0 then [Event.disconnectDecode (openglName index)]
    else []
  let s2 : ChainState :=
    { s with fork_filter_decode_edges := edges,
             x_screen_count := s.x_screen_count.set index (c + inc) }
  let r := decoding_client s2 inc
  (r.1, evs ++ r.2)

/-- `movement_cb(tup)`, lines 224-239: `tup[0] = True` opens `fs_gate`,
`False` closes it (only the boolean component is relevant). -/
def movement_cb (s : ChainState) (started : Bool) : ChainState × List Event :=
  if started then ({ s with fs_gate := true }, [Event.fsGateSet])
  else ({ s with fs_gate := false }, [Event.fsGateUnSet])

/-- `clearRecording()`, lines 267-282: return immediately if
`record_type == never` or no manager is attached; otherwise close
`fs_gate` (always mode) or `movement_client(-1)` (movement mode), then
`clearInput`, disconnect the `recorder_<slot>` edge, and reset the
recording fields. -/
def clearRecording (s : ChainState) : ChainState × List Event :=
  if s.record_type = some RecordType.never then (s, [])
  else if s.valkkafsmanager = none then (s, [])
  else
    let r1 : ChainState × List Event :=
      if s.record_type = some RecordType.always then
        ({ s with fs_gate := false }, [Event.fsGateUnSet])
      else if s.record_type = some RecordType.movement then
        movement_client s (-1)
      else (s, [])
    let s2 : ChainState :=
      { r1.1 with
        fork_filter_file_edges := r1.1.fork_filter_file_edges.erase (recorderName s),
        record_type := none, id_rec := none, valkkafsmanager := none }
    (s2, r1.2 ++ [Event.clearInput s.slot, Event.disconnectFile (recorderName s)])

/-- `setRecording(id_rec, record_type, manager)`, lines 244-264: return
immediately if the current `record_type` is `never`; clear any attached
recording first; store the new recording fields; connect the
`recorder_<slot>` edge; in always mode open `fs_gate`, in movement mode
`movement_client(+1)` and install the movement callback; finally
`setInput(id_rec, slot)` on the manager. -/
def setRecording (s : ChainState) (idRec : Int) (rt : RecordType) (manager : Nat) :
    ChainState × List Event :=
  if s.record_type = some RecordType.never then (s, [])
  else
    let r0 : ChainState × List Event :=
      if s.valkkafsmanager ≠ none then clearRecording s else (s, [])
    let s1 : ChainState :=
      { r0.1 with record_type := some rt, id_rec := some idRec,
                  valkkafsmanager := some manager }
    let s2 : ChainState :=
      { s1 with fork_filter_file_edges := recorderName s1 :: s1.fork_filter_file_edges }
    let r3 : ChainState × List Event :=
      if rt = RecordType.always then
        ({ s2 with fs_gate := true }, [Event.fsGateSet])
      else if rt = RecordType.movement then
        let ra := movement_client s2 1
        ({ ra.1 with movement_cb_set := true }, ra.2 ++ [Event.setMovementCallback])
      else (s2, [])
    (r3.1, r0.2 ++ [Event.connectFile (recorderName s1)] ++ r3.2
            ++ [Event.setInput idRec s.slot])

/-- `getShmem()`, lines 501-512: the name is
`idst + "_" + str(len(shmem_terminals))`; store the new shmem filter
under that name (a dict assignment, so an existing entry is
overwritten), connect it to `sws_fork_filter`, `sws_client(+1)`, and
return the name. -/
def getShmem (s : ChainState) : String × ChainState × List Event :=
  let name := s.idst ++ "_" ++ toString s.shmem_terminals.length
  let s1 : ChainState :=
    { s with shmem_terminals :=
        if name ∈ s.shmem_terminals then s.shmem_terminals
        else s.shmem_terminals ++ [name] }
  let s2 : ChainState := { s1 with sws_fork_edges := name :: s1.sws_fork_edges }
  let r := sws_client s2 1
  (name, r.1, Event.connectSws name :: r.2)

/-- `releaseShmem(name)`, lines 515-523: `pop` raises `KeyError` on an
unknown name, caught and turned into `return False` with nothing else
done; otherwise drop the entry, disconnect the edge, `sws_client(-1)`,
return `True`. -/
def releaseShmem (s : ChainState) (name : String) : Bool × ChainState × List Event :=
  if name ∈ s.shmem_terminals then
    let s1 : ChainState :=
      { s with shmem_terminals := s.shmem_terminals.erase name,
               sws_fork_edges := s.sws_fork_edges.erase name }
    let r := sws_client s1 (-1)
    (true, r.1, Event.disconnectSws name :: r.2)
  else (false, s, [])

/-- Helper for `releaseAllShmem`: release each name of a snapshot list
in order, threading the state. -/
def releaseShmemList (s : ChainState) : List String → ChainState × List Event
  | [] => (s, [])
  | n :: t =>
    let r1 := releaseShmem s n
    let r2 := releaseShmemList r1.2.1 t
    (r2.1, r1.2.2 ++ r2.2)

/-- `releaseAllShmem()`, lines 526-528: iterate over a snapshot of the
current keys. -/
def releaseAllShmem (s : ChainState) : ChainState × List Event :=
  releaseShmemList s s.shmem_terminals

/-- `delViewPort(view_port)`, lines 596-620: if the port is untracked,
print the FATAL report and return with no state change; otherwise
remove the port, pop its token, disconnect the token on the OpenGL
thread and `x_screen_client(index, -1)`. -/
def delViewPort (s : ChainState) (vp : ViewPort) : ChainState × List Event :=
  if vp ∈ s.ports then
    let token : Nat := (alLookup s.tokens_by_port vp).getD 0
    let s1 : ChainState :=
      { s with ports := s.ports.erase vp,
               tokens_by_port := alErase s.tokens_by_port vp }
    let r := x_screen_client s1 vp.x_screen_num (-1)
    (r.1, Event.oglDisconnect vp.x_screen_num token :: r.2)
  else (s, [Event.fatalNoSuchPort vp])

/-- `addViewPort(view_port)`, lines 533-593: if the port is already
tracked, first `delViewPort` it; then `x_screen_client(index, +1)`,
obtain a fresh token from the OpenGL thread (`connect`), record it in
`tokens_by_port`, and append the port to `ports`.  Token freshness of
`openglthread.connect` is modelled by the `next_token` counter. -/
def addViewPort (s : ChainState) (vp : ViewPort) : ChainState × List Event :=
  let r0 : ChainState × List Event :=
    if vp ∈ s.ports then delViewPort s vp else (s, [])
  let r1 := x_screen_client r0.1 vp.x_screen_num 1
  let token : Nat := r1.1.next_token
  let s2 : ChainState :=
    { r1.1 with next_token := r1.1.next_token + 1,
                tokens_by_port := alSet r1.1.tokens_by_port vp token,
                ports := r1.1.ports ++ [vp] }
  (s2, r0.2 ++ r1.2 ++ [Event.oglConnect vp.x_screen_num vp.window_id token])

/-- Helper for `clearAllViewPorts`: delete each port of a snapshot list
in order, threading the state. -/
def delViewPortList (s : ChainState) : List ViewPort → ChainState × List Event
  | [] => (s, [])
  | vp :: t =>
    let r1 := delViewPort s vp
    let r2 := delViewPortList r1.1 t
    (r2.1, r1.2 ++ r2.2)

/-- `clearAllViewPorts()`, lines 623-625: iterate over a copy of the
current port list. -/
def clearAllViewPorts (s : ChainState) : ChainState × List Event :=
  delViewPortList s s.ports

/-- `requestClose()`, lines 209-215: when not yet closed, stop the
AVThread and tear down recording, shmem readers and viewports; in
either case end with `closed = True`. -/
def requestClose (s : ChainState) : ChainState × List Event :=
  if s.closed then ({ s with closed := true }, [])
  else
    let r1 := clearRecording s
    let r2 := releaseAllShmem r1.1
    let r3 := clearAllViewPorts r2.1
    ({ r3.1 with closed := true }, Event.avRequestStop :: (r1.2 ++ r2.2 ++ r3.2))

/-- Freshly constructed chain: `initVars` (lines 178-200) with
`fs_gate.unSet()` from `make_filesystem_branch` and `sws_gate` closed,
decoding output disabled, all counters zero, no dynamic edges. -/
def initState (slot : Int) (idst : String) (nscreens : Nat) : ChainState :=
  { slot := slot
    idst := idst
    decoding_client_count := 0
    movement_client_count := 0
    sws_client_count := 0
    x_screen_count := List.replicate nscreens 0
    ports := []
    tokens_by_port := []
    next_token := 0
    shmem_terminals := []
    fork_filter_decode_edges := []
    sws_fork_edges := []
    fork_filter_file_edges := []
    fs_gate := false
    sws_gate := false
    decoding_on := false
    record_type := none
    id_rec := none
    valkkafsmanager := none
    movement_cb_set := false
    closed := false }

/-- Run a sequence of `decoding_client` calls, concatenating the
collaborator calls they issue. -/
def runDecoding (s : ChainState) : List Int → ChainState × List Event
  | [] => (s, [])
  | d :: t =>
    let r1 := decoding_client s d
    let r2 := runDecoding r1.1 t
    (r2.1, r1.2 ++ r2.2)

/-- Sum of a list of increments. -/
def sumList : List Int → Int
  | [] => 0
  | d :: t => d + sumList t

/-- Number of upward 0-to-positive crossings of the running sum,
starting from `c`. -/
def upCrossings : Int → List Int → Nat
  | _, [] => 0
  | c, d :: t => (if c = 0 ∧ 0 < c + d then 1 else 0) + upCrossings (c + d) t

/-- Number of downward positive-to-0 crossings of the running sum,
starting from `c`. -/
def downCrossings : Int → List Int → Nat
  | _, [] => 0
  | c, d :: t => (if 0 < c ∧ c + d = 0 then 1 else 0) + downCrossings (c + d) t

/-- All running sums starting from `c` stay nonnegative. -/
def runningNonneg : Int → List Int → Bool
  | _, [] => true
  | c, d :: t => decide (0 ≤ c + d) && runningNonneg (c + d) t

/-- Count occurrences of one event in a call log. -/
def countEvent (evs : List Event) (e : Event) : Nat :=
  (evs.filter (fun x => x = e)).length

/-- A viewport operation, for reachability statements. -/
inductive PortOp where
  | add (vp : ViewPort)
  | del (vp : ViewPort)
  | clearAll
  | close
deriving DecidableEq

/-- Apply one viewport operation (dropping the event log). -/
def applyPortOp (s : ChainState) : PortOp → ChainState
  | PortOp.add vp => (addViewPort s vp).1
  | PortOp.del vp => (delViewPort s vp).1
  | PortOp.clearAll => (clearAllViewPorts s).1
  | PortOp.close => (requestClose s).1

/-- Run a sequence of viewport operations. -/
def runPortOps (s : ChainState) : List PortOp → ChainState
  | [] => s
  | o :: t => runPortOps (applyPortOp s o) t

/-- Well-formedness of the viewport bookkeeping: the port list has no
duplicates, the token dict has no duplicate keys (true of any Python
dict), and a port is tracked iff it has a token entry. -/
def PortsInv (s : ChainState) : Prop :=
  s.ports.Nodup ∧ keysNodup s.tokens_by_port
    ∧ ∀ vp : ViewPort, vp ∈ s.ports ↔ vp ∈ s.tokens_by_port.map Prod.fst

end MultiFork

namespace MultiFork

/-! ### Helper lemmas -/

theorem requestClose_closed (s : ChainState) : (requestClose s).1.closed = true := by
  unfold requestClose
  split <;> rfl

theorem setClosed_self (s : ChainState) (h : s.closed = true) :
    ({ s with closed := true } : ChainState) = s := by
  cases s
  simp_all

end MultiFork

namespace MultiFork

/-! ### Claims -/

/-- C3 (supporting theorem for the code bug): `getShmem` names readers by
the current number of tracked readers, so after acquire, acquire,
release-of-the-first, the next acquire returns the name of the still
live second reader: the returned name equals an earlier returned name
and is already present in `shmem_terminals` at the moment of the call. -/
theorem C3_name_collision :
    (getShmem (releaseShmem (getShmem (getShmem (initState 1 "X" 1)).2.1).2.1
        (getShmem (initState 1 "X" 1)).1).2.1).1
      = (getShmem (getShmem (initState 1 "X" 1)).2.1).1
    ∧ (getShmem (releaseShmem (getShmem (getShmem (initState 1 "X" 1)).2.1).2.1
        (getShmem (initState 1 "X" 1)).1).2.1).1
      ∈ (releaseShmem (getShmem (getShmem (initState 1 "X" 1)).2.1).2.1
        (getShmem (initState 1 "X" 1)).1).2.1.shmem_terminals := by
  decide

/-- C7: `delViewPort` on a viewport that is not tracked reports the
error (the FATAL log event) and leaves the chain state unchanged, with
no collaborator call issued. -/
theorem C7_del_untracked (s : ChainState) (vp : ViewPort) (h : vp ∉ s.ports) :
    delViewPort s vp = (s, [Event.fatalNoSuchPort vp]) := by
  unfold delViewPort
  rw [if_neg h]

/-- Witness for C7 on a freshly constructed chain. -/
theorem C7_del_untracked_witness :
    delViewPort (initState 1 "a" 1) ⟨1, 0⟩ = (initState 1 "a" 1, [Event.fatalNoSuchPort ⟨1, 0⟩]) :=
  C7_del_untracked (initState 1 "a" 1) ⟨1, 0⟩ (by decide)

/-- C8: `requestClose` is idempotent: a second call after one has
already run finds `closed = true`, performs no collaborator call and
leaves the whole chain state unchanged. -/
theorem C8_requestClose_idempotent (s : ChainState) :
    requestClose ((requestClose s).1) = ((requestClose s).1, []) := by
  have h := requestClose_closed s
  generalize (requestClose s).1 = t at h ⊢
  unfold requestClose
  rw [if_pos h, setClosed_self _ h]

end MultiFork

namespace MultiFork

theorem decoding_client_step (s : ChainState) (d : Int)
    (hd : d = 1 ∨ d = 0 ∨ d = -1)
    (h0 : 0 ≤ s.decoding_client_count)
    (h1 : 0 ≤ s.decoding_client_count + d)
    (hon : s.decoding_on = decide (0 < s.decoding_client_count)) :
    (decoding_client s d).1.decoding_client_count = s.decoding_client_count + d ∧
    (decoding_client s d).1.decoding_on = decide (0 < s.decoding_client_count + d) ∧
    (decoding_client s d).2 =
      (if s.decoding_client_count = 0 ∧ 0 < s.decoding_client_count + d then [Event.decodingOn]
       else if 0 < s.decoding_client_count ∧ s.decoding_client_count + d = 0 then [Event.decodingOff]
       else []) := by
  simp only [decoding_client]
  refine ⟨?_, ?_, ?_⟩
  · simp
  · split_ifs <;> simp_all <;> omega
  · split_ifs <;> simp_all <;> omega

end MultiFork

namespace MultiFork

theorem countEvent_append (a b : List Event) (e : Event) :
    countEvent (a ++ b) e = countEvent a e + countEvent b e := by
  simp [countEvent, List.filter_append]

theorem runDecoding_unit_spec (ds : List Int) : ∀ (s : ChainState),
    (∀ d ∈ ds, d = 1 ∨ d = 0 ∨ d = -1) →
    runningNonneg s.decoding_client_count ds = true →
    0 ≤ s.decoding_client_count →
    s.decoding_on = decide (0 < s.decoding_client_count) →
    (runDecoding s ds).1.decoding_client_count = s.decoding_client_count + sumList ds ∧
    (runDecoding s ds).1.decoding_on = decide (0 < s.decoding_client_count + sumList ds) ∧
    countEvent (runDecoding s ds).2 Event.decodingOn = upCrossings s.decoding_client_count ds ∧
    countEvent (runDecoding s ds).2 Event.decodingOff = downCrossings s.decoding_client_count ds := by
  induction ds with
  | nil =>
    intro s _ _ _ hon
    simp [runDecoding, sumList, upCrossings, downCrossings, countEvent, hon]
  | cons d t ih =>
    intro s hmem hnn h0 hon
    have hd : d = 1 ∨ d = 0 ∨ d = -1 := hmem d (List.mem_cons_self d t)
    have hnn' : (decide (0 ≤ s.decoding_client_count + d)
        && runningNonneg (s.decoding_client_count + d) t) = true := hnn
    rw [Bool.and_eq_true] at hnn'
    have h1 : 0 ≤ s.decoding_client_count + d := by simpa using hnn'.1
    obtain ⟨hc, hon', hev⟩ := decoding_client_step s d hd h0 h1 hon
    have ih' := ih (decoding_client s d).1
      (fun x hx => hmem x (List.mem_cons_of_mem d hx))
      (by rw [hc]; exact hnn'.2) (by rw [hc]; exact h1) (by rw [hon', hc])
    rw [hc] at ih'
    obtain ⟨ihc, ihon, ihup, ihdown⟩ := ih'
    have hrun1 : (runDecoding s (d :: t)).1 = (runDecoding (decoding_client s d).1 t).1 := rfl
    have hrun2 : (runDecoding s (d :: t)).2
        = (decoding_client s d).2 ++ (runDecoding (decoding_client s d).1 t).2 := rfl
    refine ⟨?_, ?_, ?_, ?_⟩
    · rw [hrun1, ihc]
      simp [sumList]
      ring
    · rw [hrun1, ihon]
      simp [sumList]
      ring_nf
    · rw [hrun2, countEvent_append, hev, ihup]
      show _ = upCrossings s.decoding_client_count (d :: t)
      rw [upCrossings]
      split_ifs <;> simp_all [countEvent]
    · rw [hrun2, countEvent_append, hev, ihdown]
      show _ = downCrossings s.decoding_client_count (d :: t)
      rw [downCrossings]
      split_ifs <;> simp_all [countEvent]

end MultiFork

namespace MultiFork

/-- C1 counterexample. -/
theorem C1_counterexample :
    (runDecoding (initState 1 "chain" 1) [2, -2]).1.decoding_on = true
    ∧ sumList [2, -2] = 0 := by
  decide

/-- C1 amended. -/
theorem C1_decoding_iff_crossings (ds : List Int)
    (hunit : ∀ d ∈ ds, d = 1 ∨ d = 0 ∨ d = -1)
    (hnn : runningNonneg 0 ds = true) :
    (runDecoding (initState 1 "chain" 1) ds).1.decoding_on = decide (0 < sumList ds)
    ∧ countEvent (runDecoding (initState 1 "chain" 1) ds).2 Event.decodingOn = upCrossings 0 ds
    ∧ countEvent (runDecoding (initState 1 "chain" 1) ds).2 Event.decodingOff = downCrossings 0 ds := by
  have h := runDecoding_unit_spec ds (initState 1 "chain" 1) hunit
    (by simpa [initState] using hnn) (by simp [initState]) (by simp [initState])
  simp only [initState] at h
  obtain ⟨-, h2, h3, h4⟩ := h
  refine ⟨?_, h3, h4⟩
  simpa using h2

/-- Witness for C1 amended. -/
theorem C1_witness :
    runningNonneg 0 [1, 1, -1, -1, 1] = true
    ∧ ((runDecoding (initState 1 "chain" 1) [1, 1, -1, -1, 1]).1.decoding_on
          = decide (0 < sumList [1, 1, -1, -1, 1])
        ∧ countEvent (runDecoding (initState 1 "chain" 1) [1, 1, -1, -1, 1]).2 Event.decodingOn
          = upCrossings 0 [1, 1, -1, -1, 1]
        ∧ countEvent (runDecoding (initState 1 "chain" 1) [1, 1, -1, -1, 1]).2 Event.decodingOff
          = downCrossings 0 [1, 1, -1, -1, 1]) :=
  ⟨by decide, C1_decoding_iff_crossings [1, 1, -1, -1, 1] (by decide) (by decide)⟩

end MultiFork

namespace MultiFork

/-- C2 counterexample: from a fresh chain (no recording attached),
`setRecording(7, movement, sink)` followed by a motion-start event
followed by `clearRecording()` leaves `fs_gate` OPEN (`true`),
contradicting the claim that the record gate ends closed:
`clearRecording` in movement mode only decrements the movement client
count and never touches `fs_gate`. -/
theorem C2_counterexample :
    (clearRecording (movement_cb
        (setRecording (initState 1 "chain" 1) 7 RecordType.movement 0).1 true).1).1.fs_gate
      = true := by
  decide

/-- C2 (amended): from a state with no recording attached,
`setRecording(id, always, sink)` then `clearRecording()` restores
`fs_gate` to closed and the recording state to unset; and
`setRecording(id, movement, sink)` then a motion-start event then
`clearRecording()` leaves `movement_client_count` at its
pre-`setRecording` value, while `fs_gate` stays open in the state the
motion event put it in (`clearRecording` does not close the gate in
movement mode). -/
theorem C2_set_clear_recording (s : ChainState) (idA idM : Int) (mA mM : Nat)
    (h1 : s.record_type = none) (h2 : s.valkkafsmanager = none) :
    ((clearRecording (setRecording s idA RecordType.always mA).1).1.fs_gate = false
      ∧ (clearRecording (setRecording s idA RecordType.always mA).1).1.record_type = none
      ∧ (clearRecording (setRecording s idA RecordType.always mA).1).1.id_rec = none
      ∧ (clearRecording (setRecording s idA RecordType.always mA).1).1.valkkafsmanager = none)
    ∧ ((clearRecording (movement_cb
          (setRecording s idM RecordType.movement mM).1 true).1).1.movement_client_count
        = s.movement_client_count
      ∧ (clearRecording (movement_cb
          (setRecording s idM RecordType.movement mM).1 true).1).1.fs_gate = true) := by
  simp [setRecording, clearRecording, movement_cb, movement_client, decoding_client, h1, h2]

/-- Witness for C2 amended, on a freshly constructed chain. -/
theorem C2_set_clear_recording_witness :
    ((initState 1 "chain" 1).record_type = none
      ∧ (initState 1 "chain" 1).valkkafsmanager = none)
    ∧ (((clearRecording (setRecording (initState 1 "chain" 1) 7 RecordType.always 3).1).1.fs_gate
          = false
        ∧ (clearRecording
            (setRecording (initState 1 "chain" 1) 7 RecordType.always 3).1).1.record_type = none
        ∧ (clearRecording
            (setRecording (initState 1 "chain" 1) 7 RecordType.always 3).1).1.id_rec = none
        ∧ (clearRecording
            (setRecording (initState 1 "chain" 1) 7 RecordType.always 3).1).1.valkkafsmanager
          = none)
      ∧ ((clearRecording (movement_cb
            (setRecording (initState 1 "chain" 1) 8 RecordType.movement 4).1
            true).1).1.movement_client_count
          = (initState 1 "chain" 1).movement_client_count
        ∧ (clearRecording (movement_cb
            (setRecording (initState 1 "chain" 1) 8 RecordType.movement 4).1 true).1).1.fs_gate
          = true)) :=
  ⟨⟨rfl, rfl⟩, C2_set_clear_recording (initState 1 "chain" 1) 7 8 3 4 rfl rfl⟩

end MultiFork

namespace MultiFork

theorem x_screen_client_closed (s : ChainState) (b : Bool) (i : Nat) (inc : Int) :
    x_screen_client { s with closed := b } i inc
      = ({ (x_screen_client s i inc).1 with closed := b }, (x_screen_client s i inc).2) := rfl

theorem sws_client_closed (s : ChainState) (b : Bool) (inc : Int) :
    sws_client { s with closed := b } inc
      = ({ (sws_client s inc).1 with closed := b }, (sws_client s inc).2) := rfl

theorem delViewPort_closed (s : ChainState) (b : Bool) (vp : ViewPort) :
    delViewPort { s with closed := b } vp
      = ({ (delViewPort s vp).1 with closed := b }, (delViewPort s vp).2) := by
  by_cases h : vp ∈ s.ports <;>
    simp [delViewPort, x_screen_client, decoding_client, h, alLookup]

theorem addViewPort_closed (s : ChainState) (b : Bool) (vp : ViewPort) :
    addViewPort { s with closed := b } vp
      = ({ (addViewPort s vp).1 with closed := b }, (addViewPort s vp).2) := by
  by_cases h : vp ∈ s.ports <;>
    simp [addViewPort, delViewPort, x_screen_client, decoding_client, h, alLookup]

theorem getShmem_closed (s : ChainState) (b : Bool) :
    getShmem { s with closed := b }
      = ((getShmem s).1, { (getShmem s).2.1 with closed := b }, (getShmem s).2.2) := rfl

theorem clearRecording_closed (s : ChainState) (b : Bool) :
    clearRecording { s with closed := b }
      = ({ (clearRecording s).1 with closed := b }, (clearRecording s).2) := by
  by_cases h1 : s.record_type = some RecordType.never <;>
    by_cases h2 : s.valkkafsmanager = none <;>
      by_cases h3 : s.record_type = some RecordType.always <;>
        by_cases h4 : s.record_type = some RecordType.movement <;>
          simp [clearRecording, movement_client, decoding_client, analysisName, recorderName,
            h1, h2, h3, h4]

theorem setRecording_closed (s : ChainState) (b : Bool) (idRec : Int) (rt : RecordType) (m : Nat) :
    setRecording { s with closed := b } idRec rt m
      = ({ (setRecording s idRec rt m).1 with closed := b }, (setRecording s idRec rt m).2) := by
  by_cases h1 : s.record_type = some RecordType.never <;>
    by_cases h2 : s.valkkafsmanager = none <;>
      by_cases h3 : s.record_type = some RecordType.always <;>
        by_cases h4 : s.record_type = some RecordType.movement <;>
          cases rt <;>
            simp [setRecording, clearRecording, movement_client, decoding_client, analysisName,
              recorderName, h1, h2, h3, h4]

end MultiFork

namespace MultiFork

/-- C4 counterexample: on a freshly constructed chain, after
`requestClose` has run (`closed = true`), `getShmem` still succeeds: it
mutates the chain state and issues collaborator calls, and
`addViewPort` still adds the viewport, contradicting the claim that no
attach operation succeeds after close. -/
theorem C4_counterexample :
    (requestClose (initState 1 "chain" 1)).1.closed = true
    ∧ (getShmem (requestClose (initState 1 "chain" 1)).1).2.1
        ≠ (requestClose (initState 1 "chain" 1)).1
    ∧ (getShmem (requestClose (initState 1 "chain" 1)).1).2.2 ≠ []
    ∧ ⟨5, 0⟩ ∈ (addViewPort (requestClose (initState 1 "chain" 1)).1 ⟨5, 0⟩).1.ports
    ∧ (setRecording (requestClose (initState 1 "chain" 1)).1 7 RecordType.always 3).1
        ≠ (requestClose (initState 1 "chain" 1)).1 := by
  decide

/-- C4 (amended): the `closed` flag set by `requestClose` guards only
`requestClose` itself; `addViewPort`, `getShmem` and `setRecording` do
not consult it, so on a closed chain each behaves exactly as on the
corresponding unclosed chain (same return value, same collaborator
calls, same state change apart from the `closed` field). -/
theorem C4_closed_not_consulted (s : ChainState) (b : Bool) (vp : ViewPort)
    (idRec : Int) (rt : RecordType) (m : Nat) :
    addViewPort { s with closed := b } vp
      = ({ (addViewPort s vp).1 with closed := b }, (addViewPort s vp).2)
    ∧ getShmem { s with closed := b }
      = ((getShmem s).1, { (getShmem s).2.1 with closed := b }, (getShmem s).2.2)
    ∧ setRecording { s with closed := b } idRec rt m
      = ({ (setRecording s idRec rt m).1 with closed := b }, (setRecording s idRec rt m).2) :=
  ⟨addViewPort_closed s b vp, getShmem_closed s b, setRecording_closed s b idRec rt m⟩

end MultiFork

namespace MultiFork

theorem countEvent_cons_eq (l : List Event) (e : Event) :
    countEvent (e :: l) e = countEvent l e + 1 := by
  simp [countEvent]

theorem sws_client_no_disconnectSws (s : ChainState) (inc : Int) (name : String) :
    countEvent (sws_client s inc).2 (Event.disconnectSws name) = 0 := by
  simp only [sws_client, movement_client, decoding_client, countEvent]
  split_ifs <;> simp

/-- C5: `releaseShmem(name)` on an unknown name returns `False` with no
state change and no collaborator call; on a tracked name it returns
`True`, removes the name from `shmem_terminals`, disconnects that named
edge on the scaled fork exactly once, and applies `sws_client(-1)`
exactly once (the scale client count drops by exactly one). -/
theorem C5_releaseShmem (s : ChainState) (name : String) :
    (name ∉ s.shmem_terminals → releaseShmem s name = (false, s, []))
    ∧ (name ∈ s.shmem_terminals →
        (releaseShmem s name).1 = true
        ∧ (releaseShmem s name).2.1.shmem_terminals = s.shmem_terminals.erase name
        ∧ (releaseShmem s name).2.1.sws_fork_edges = s.sws_fork_edges.erase name
        ∧ (releaseShmem s name).2.1.sws_client_count = s.sws_client_count - 1
        ∧ countEvent (releaseShmem s name).2.2 (Event.disconnectSws name) = 1) := by
  constructor
  · intro h
    unfold releaseShmem
    rw [if_neg h]
  · intro h
    have hrw : releaseShmem s name
        = (true,
           (sws_client { s with shmem_terminals := s.shmem_terminals.erase name,
                                sws_fork_edges := s.sws_fork_edges.erase name } (-1)).1,
           Event.disconnectSws name
             :: (sws_client { s with shmem_terminals := s.shmem_terminals.erase name,
                                     sws_fork_edges := s.sws_fork_edges.erase name } (-1)).2) := by
      unfold releaseShmem
      rw [if_pos h]
    rw [hrw]
    refine ⟨rfl, rfl, rfl, ?_, ?_⟩
    · show s.sws_client_count + (-1) = s.sws_client_count - 1
      omega
    · dsimp only
      rw [countEvent_cons_eq, sws_client_no_disconnectSws]

/-- Witness for C5: unknown name on a fresh chain; known name on a
chain with one acquired reader. -/
theorem C5_releaseShmem_witness :
    releaseShmem (initState 1 "chain" 1) ("z") = (false, initState 1 "chain" 1, [])
    ∧ ((releaseShmem (getShmem (initState 1 "chain" 1)).2.1 ("chain_0")).1 = true
        ∧ (releaseShmem (getShmem (initState 1 "chain" 1)).2.1 ("chain_0")).2.1.shmem_terminals
          = (getShmem (initState 1 "chain" 1)).2.1.shmem_terminals.erase ("chain_0")
        ∧ (releaseShmem (getShmem (initState 1 "chain" 1)).2.1 ("chain_0")).2.1.sws_fork_edges
          = (getShmem (initState 1 "chain" 1)).2.1.sws_fork_edges.erase ("chain_0")
        ∧ (releaseShmem (getShmem (initState 1 "chain" 1)).2.1 ("chain_0")).2.1.sws_client_count
          = (getShmem (initState 1 "chain" 1)).2.1.sws_client_count - 1
        ∧ countEvent (releaseShmem (getShmem (initState 1 "chain" 1)).2.1 ("chain_0")).2.2
            (Event.disconnectSws ("chain_0")) = 1) :=
  ⟨(C5_releaseShmem (initState 1 "chain" 1) ("z")).1 (by decide),
   (C5_releaseShmem (getShmem (initState 1 "chain" 1)).2.1 ("chain_0")).2 (by decide)⟩

end MultiFork

namespace MultiFork

theorem clearRecording_slot (s : ChainState) : (clearRecording s).1.slot = s.slot := by
  unfold clearRecording
  split_ifs <;> rfl

/-- C10: calling `setRecording(id, never, manager)` on a chain whose
current recording state is not `never` connects the `recorder_<slot>`
edge and attaches the manager, and afterwards every `setRecording` call
and every `clearRecording` call returns immediately with no state
change and no collaborator call, so the recorder edge and manager stay
attached permanently. -/
theorem C10_recording_never_lockup (s : ChainState) (idRec : Int) (m : Nat)
    (h : s.record_type ≠ some RecordType.never) :
    (setRecording s idRec RecordType.never m).1.record_type = some RecordType.never
    ∧ (setRecording s idRec RecordType.never m).1.valkkafsmanager = some m
    ∧ recorderName s ∈ (setRecording s idRec RecordType.never m).1.fork_filter_file_edges
    ∧ Event.connectFile (recorderName s) ∈ (setRecording s idRec RecordType.never m).2
    ∧ (∀ (id2 : Int) (rt2 : RecordType) (m2 : Nat),
        setRecording (setRecording s idRec RecordType.never m).1 id2 rt2 m2
          = ((setRecording s idRec RecordType.never m).1, []))
    ∧ clearRecording (setRecording s idRec RecordType.never m).1
        = ((setRecording s idRec RecordType.never m).1, []) := by
  have hrt : (setRecording s idRec RecordType.never m).1.record_type
      = some RecordType.never := by
    unfold setRecording
    rw [if_neg h]
    rfl
  have hslot : (setRecording s idRec RecordType.never m).1.slot = s.slot := by
    unfold setRecording
    rw [if_neg h]
    by_cases h2 : s.valkkafsmanager = none
    · simp [h2, clearRecording_slot]
    · simp [h2, clearRecording_slot]
  refine ⟨hrt, ?_, ?_, ?_, ?_, ?_⟩
  · unfold setRecording
    rw [if_neg h]
    rfl
  · unfold setRecording
    rw [if_neg h]
    by_cases h2 : s.valkkafsmanager = none <;>
      simp [h2, recorderName, clearRecording_slot]
  · unfold setRecording
    rw [if_neg h]
    by_cases h2 : s.valkkafsmanager = none <;>
      simp [h2, recorderName, clearRecording_slot]
  · intro id2 rt2 m2
    conv_lhs => rw [setRecording]
    rw [if_pos hrt]
  · rw [clearRecording]
    rw [if_pos hrt]

/-- Witness for C10 on a freshly constructed chain. -/
theorem C10_recording_never_lockup_witness :
    (setRecording (initState 1 "chain" 1) 5 RecordType.never 3).1.record_type
      = some RecordType.never
    ∧ setRecording (setRecording (initState 1 "chain" 1) 5 RecordType.never 3).1
        7 RecordType.always 9
      = ((setRecording (initState 1 "chain" 1) 5 RecordType.never 3).1, [])
    ∧ clearRecording (setRecording (initState 1 "chain" 1) 5 RecordType.never 3).1
      = ((setRecording (initState 1 "chain" 1) 5 RecordType.never 3).1, []) :=
  ⟨(C10_recording_never_lockup (initState 1 "chain" 1) 5 3 (by decide)).1,
   (C10_recording_never_lockup (initState 1 "chain" 1) 5 3 (by decide)).2.2.2.2.1
      7 RecordType.always 9,
   (C10_recording_never_lockup (initState 1 "chain" 1) 5 3 (by decide)).2.2.2.2.2⟩

end MultiFork

namespace MultiFork

theorem alLookup_isSome_iff (l : List (ViewPort × Nat)) (k : ViewPort) :
    (alLookup l k).isSome = true ↔ k ∈ l.map Prod.fst := by
  induction l with
  | nil => simp [alLookup]
  | cons hd t ih =>
    obtain ⟨a, b⟩ := hd
    simp only [alLookup, List.map_cons, List.mem_cons]
    by_cases h : a = k
    · subst h
      simp
    · simp [h, Ne.symm h, ih]

theorem keys_alSet (l : List (ViewPort × Nat)) (k : ViewPort) (v : Nat) :
    (alSet l k v).map Prod.fst
      = if k ∈ l.map Prod.fst then l.map Prod.fst else l.map Prod.fst ++ [k] := by
  induction l with
  | nil => simp [alSet]
  | cons hd t ih =>
    obtain ⟨a, b⟩ := hd
    by_cases h : a = k
    · simp [alSet, h]
    · by_cases h2 : k ∈ t.map Prod.fst <;>
        simp [alSet, h, ih, h2, Ne.symm h]

theorem keys_alErase (l : List (ViewPort × Nat)) (k : ViewPort) :
    (alErase l k).map Prod.fst = (l.map Prod.fst).erase k := by
  induction l with
  | nil => simp [alErase]
  | cons hd t ih =>
    obtain ⟨a, b⟩ := hd
    by_cases h : a = k <;> simp [alErase, List.erase_cons, h, ih]

theorem keysNodup_alSet (l : List (ViewPort × Nat)) (k : ViewPort) (v : Nat)
    (h : keysNodup l) : keysNodup (alSet l k v) := by
  unfold keysNodup at h ⊢
  rw [keys_alSet]
  by_cases h2 : k ∈ l.map Prod.fst
  · simpa [h2] using h
  · simp only [h2, if_false]
    rw [List.nodup_append]
    exact ⟨h, List.nodup_singleton k, by simpa [List.disjoint_singleton] using h2⟩

theorem keysNodup_alErase (l : List (ViewPort × Nat)) (k : ViewPort)
    (h : keysNodup l) : keysNodup (alErase l k) := by
  unfold keysNodup at h ⊢
  rw [keys_alErase]
  exact h.erase k

theorem countKey_eq_zero_of_not_mem (l : List (ViewPort × Nat)) (k : ViewPort)
    (h : k ∉ l.map Prod.fst) : countKey l k = 0 := by
  induction l with
  | nil => rfl
  | cons hd t ih =>
    obtain ⟨a, b⟩ := hd
    simp only [List.map_cons, List.mem_cons, not_or] at h
    simp [countKey, Ne.symm h.1, ih h.2]

theorem countKey_alSet_self (l : List (ViewPort × Nat)) (k : ViewPort) (v : Nat)
    (h : keysNodup l) : countKey (alSet l k v) k = 1 := by
  induction l with
  | nil => simp [alSet, countKey]
  | cons hd t ih =>
    obtain ⟨a, b⟩ := hd
    unfold keysNodup at h
    simp only [List.map_cons, List.nodup_cons] at h
    by_cases hak : a = k
    · subst hak
      simp [alSet, countKey, countKey_eq_zero_of_not_mem t a h.1]
    · simp [alSet, countKey, hak, ih h.2]

theorem getD_set_self : ∀ (l : List Int) (i : Nat) (v : Int), i < l.length →
    (l.set i v).getD i 0 = v
  | [], i, v, h => absurd h (by simp)
  | a :: t, 0, v, _ => rfl
  | a :: t, i + 1, v, h => getD_set_self t i v (by simpa using h)

end MultiFork

namespace MultiFork

theorem delViewPort_effect (s : ChainState) (vp : ViewPort) (h : vp ∈ s.ports) :
    (delViewPort s vp).1.ports = s.ports.erase vp
    ∧ (delViewPort s vp).1.tokens_by_port = alErase s.tokens_by_port vp
    ∧ (delViewPort s vp).1.next_token = s.next_token
    ∧ (delViewPort s vp).1.x_screen_count
        = s.x_screen_count.set vp.x_screen_num
            (s.x_screen_count.getD vp.x_screen_num 0 + (-1)) := by
  unfold delViewPort
  rw [if_pos h]
  exact ⟨rfl, rfl, rfl, rfl⟩

theorem addViewPort_effect_not_mem (s : ChainState) (vp : ViewPort) (h : vp ∉ s.ports) :
    (addViewPort s vp).1.ports = s.ports ++ [vp]
    ∧ (addViewPort s vp).1.tokens_by_port = alSet s.tokens_by_port vp s.next_token
    ∧ (addViewPort s vp).1.next_token = s.next_token + 1
    ∧ (addViewPort s vp).1.x_screen_count
        = s.x_screen_count.set vp.x_screen_num
            (s.x_screen_count.getD vp.x_screen_num 0 + 1) := by
  unfold addViewPort
  rw [if_neg h]
  exact ⟨rfl, rfl, rfl, rfl⟩

theorem addViewPort_mem_del (s : ChainState) (vp : ViewPort) (h : vp ∈ s.ports)
    (h2 : vp ∉ (delViewPort s vp).1.ports) :
    (addViewPort s vp).1 = (addViewPort (delViewPort s vp).1 vp).1 := by
  unfold addViewPort
  rw [if_pos h, if_neg h2]

theorem delViewPort_not_mem_self (s : ChainState) (vp : ViewPort) (h : s.ports.Nodup) :
    vp ∉ (delViewPort s vp).1.ports := by
  by_cases hm : vp ∈ s.ports
  · rw [(delViewPort_effect s vp hm).1]
    intro hc
    exact absurd ((h.mem_erase_iff.mp hc).1 rfl) (by simp)
  · unfold delViewPort
    rw [if_neg hm]
    exact hm

theorem delViewPort_PortsInv (s : ChainState) (vp : ViewPort) (h : PortsInv s) :
    PortsInv (delViewPort s vp).1 := by
  obtain ⟨h1, h2, h3⟩ := h
  by_cases hm : vp ∈ s.ports
  · obtain ⟨hp, ht, -, -⟩ := delViewPort_effect s vp hm
    refine ⟨?_, ?_, ?_⟩
    · rw [hp]
      exact h1.erase vp
    · rw [ht]
      exact keysNodup_alErase _ _ h2
    · intro v
      rw [hp, ht, keys_alErase, h1.mem_erase_iff,
        (h2.mem_erase_iff : v ∈ (s.tokens_by_port.map Prod.fst).erase vp ↔ _)]
      exact and_congr_right (fun _ => h3 v)
  · unfold delViewPort
    rw [if_neg hm]
    exact ⟨h1, h2, h3⟩

theorem addViewPort_PortsInv (s : ChainState) (vp : ViewPort) (h : PortsInv s) :
    PortsInv (addViewPort s vp).1 := by
  obtain ⟨h1, h2, h3⟩ := h
  by_cases hm : vp ∈ s.ports
  · rw [addViewPort_mem_del s vp hm (delViewPort_not_mem_self s vp h1)]
    have hd : PortsInv (delViewPort s vp).1 := delViewPort_PortsInv s vp ⟨h1, h2, h3⟩
    obtain ⟨d1, d2, d3⟩ := hd
    have hnm := delViewPort_not_mem_self s vp h1
    obtain ⟨hp, ht, -, -⟩ := addViewPort_effect_not_mem (delViewPort s vp).1 vp hnm
    refine ⟨?_, ?_, ?_⟩
    · rw [hp, List.nodup_append]
      exact ⟨d1, List.nodup_singleton vp, by simpa [List.disjoint_singleton] using hnm⟩
    · rw [ht]
      exact keysNodup_alSet _ _ _ d2
    · intro v
      rw [hp, ht, keys_alSet]
      by_cases hv : v = vp
      · by_cases hk : vp ∈ (delViewPort s vp).1.tokens_by_port.map Prod.fst <;>
          simp [hv, hk]
      · by_cases hk : vp ∈ (delViewPort s vp).1.tokens_by_port.map Prod.fst <;>
          simp [hk, hv, d3 v]
  · obtain ⟨hp, ht, -, -⟩ := addViewPort_effect_not_mem s vp hm
    refine ⟨?_, ?_, ?_⟩
    · rw [hp, List.nodup_append]
      exact ⟨h1, List.nodup_singleton vp, by simpa [List.disjoint_singleton] using hm⟩
    · rw [ht]
      exact keysNodup_alSet _ _ _ h2
    · intro v
      rw [hp, ht, keys_alSet]
      by_cases hv : v = vp
      · by_cases hk : vp ∈ s.tokens_by_port.map Prod.fst <;> simp [hv, hk]
      · by_cases hk : vp ∈ s.tokens_by_port.map Prod.fst <;> simp [hk, hv, h3 v]

end MultiFork

namespace MultiFork

theorem delViewPortList_PortsInv : ∀ (l : List ViewPort) (s : ChainState),
    PortsInv s → PortsInv (delViewPortList s l).1
  | [], _, h => h
  | vp :: t, s, h =>
    delViewPortList_PortsInv t (delViewPort s vp).1 (delViewPort_PortsInv s vp h)

theorem clearRecording_ports_tokens (s : ChainState) :
    (clearRecording s).1.ports = s.ports
    ∧ (clearRecording s).1.tokens_by_port = s.tokens_by_port := by
  unfold clearRecording
  split_ifs <;> exact ⟨rfl, rfl⟩

theorem releaseShmem_ports_tokens (s : ChainState) (name : String) :
    (releaseShmem s name).2.1.ports = s.ports
    ∧ (releaseShmem s name).2.1.tokens_by_port = s.tokens_by_port := by
  unfold releaseShmem
  split_ifs <;> exact ⟨rfl, rfl⟩

theorem releaseShmemList_ports_tokens : ∀ (l : List String) (s : ChainState),
    (releaseShmemList s l).1.ports = s.ports
    ∧ (releaseShmemList s l).1.tokens_by_port = s.tokens_by_port
  | [], s => ⟨rfl, rfl⟩
  | n :: t, s => by
    have h1 := releaseShmem_ports_tokens s n
    have h2 := releaseShmemList_ports_tokens t (releaseShmem s n).2.1
    exact ⟨by rw [releaseShmemList] at *; rw [h2.1, h1.1], by rw [releaseShmemList] at *; rw [h2.2, h1.2]⟩

theorem requestClose_PortsInv (s : ChainState) (h : PortsInv s) :
    PortsInv (requestClose s).1 := by
  unfold requestClose
  split_ifs with hc
  · exact h
  · have h1 := clearRecording_ports_tokens s
    have h2 := releaseShmemList_ports_tokens (clearRecording s).1.shmem_terminals (clearRecording s).1
    have hmid : PortsInv (releaseAllShmem (clearRecording s).1).1 := by
      unfold releaseAllShmem
      unfold PortsInv at h ⊢
      rw [h2.1, h2.2, h1.1, h1.2]
      exact h
    have h3 := delViewPortList_PortsInv (releaseAllShmem (clearRecording s).1).1.ports
      (releaseAllShmem (clearRecording s).1).1 hmid
    unfold PortsInv at h3 ⊢
    exact h3

theorem applyPortOp_PortsInv (s : ChainState) (o : PortOp) (h : PortsInv s) :
    PortsInv (applyPortOp s o) := by
  cases o with
  | add vp => exact addViewPort_PortsInv s vp h
  | del vp => exact delViewPort_PortsInv s vp h
  | clearAll => exact delViewPortList_PortsInv s.ports s h
  | close => exact requestClose_PortsInv s h

theorem runPortOps_PortsInv : ∀ (ops : List PortOp) (s : ChainState),
    PortsInv s → PortsInv (runPortOps s ops)
  | [], _, h => h
  | o :: t, s, h => runPortOps_PortsInv t (applyPortOp s o) (applyPortOp_PortsInv s o h)

theorem initState_PortsInv (slot : Int) (idst : String) (n : Nat) :
    PortsInv (initState slot idst n) := by
  refine ⟨List.nodup_nil, List.nodup_nil, ?_⟩
  intro vp
  simp [initState]

/-- C9: in every state reachable from a freshly constructed chain by
any sequence of `addViewPort`, `delViewPort`, `clearAllViewPorts` and
`requestClose` calls, a viewport is in the tracked `ports` list iff it
has an entry in the `tokens_by_port` mapping. -/
theorem C9_ports_iff_tokens (slot : Int) (idst : String) (n : Nat)
    (ops : List PortOp) (vp : ViewPort) :
    vp ∈ (runPortOps (initState slot idst n) ops).ports
      ↔ (alLookup (runPortOps (initState slot idst n) ops).tokens_by_port vp).isSome = true := by
  have h := runPortOps_PortsInv ops (initState slot idst n) (initState_PortsInv slot idst n)
  rw [alLookup_isSome_iff]
  exact h.2.2 vp

end MultiFork

namespace MultiFork

theorem add_twice_aux (t : ChainState) (vp : ViewPort)
    (hnm : vp ∉ t.ports) (h1 : t.ports.Nodup) (h2 : keysNodup t.tokens_by_port)
    (hidx : vp.x_screen_num < t.x_screen_count.length) :
    (addViewPort (addViewPort t vp).1 vp).1.ports = (addViewPort t vp).1.ports
    ∧ (addViewPort (addViewPort t vp).1 vp).1.x_screen_count
        = (addViewPort t vp).1.x_screen_count
    ∧ (addViewPort (addViewPort t vp).1 vp).1.ports.count vp = 1
    ∧ countKey (addViewPort (addViewPort t vp).1 vp).1.tokens_by_port vp = 1
    ∧ (addViewPort (addViewPort t vp).1 vp).1.x_screen_count.getD vp.x_screen_num 0
        = (addViewPort t vp).1.x_screen_count.getD vp.x_screen_num 0 := by
  obtain ⟨hAp, hAt, hAn, hAx⟩ := addViewPort_effect_not_mem t vp hnm
  have hmemA : vp ∈ (addViewPort t vp).1.ports := by
    rw [hAp]
    simp
  have hAnodup : (addViewPort t vp).1.ports.Nodup := by
    rw [hAp, List.nodup_append]
    exact ⟨h1, List.nodup_singleton vp, by simpa [List.disjoint_singleton] using hnm⟩
  have hnm2 := delViewPort_not_mem_self (addViewPort t vp).1 vp hAnodup
  obtain ⟨hDp, hDt, hDn, hDx⟩ := delViewPort_effect (addViewPort t vp).1 vp hmemA
  have heq := addViewPort_mem_del (addViewPort t vp).1 vp hmemA hnm2
  obtain ⟨hSp, hSt, hSn, hSx⟩ :=
    addViewPort_effect_not_mem (delViewPort (addViewPort t vp).1 vp).1 vp hnm2
  have herase : (addViewPort t vp).1.ports.erase vp = t.ports := by
    rw [hAp, List.erase_append_right _ hnm]
    simp
  have hlen : vp.x_screen_num < (addViewPort t vp).1.x_screen_count.length := by
    rw [hAx, List.length_set]
    exact hidx
  have hgA : (addViewPort t vp).1.x_screen_count.getD vp.x_screen_num 0
      = t.x_screen_count.getD vp.x_screen_num 0 + 1 := by
    rw [hAx]
    exact getD_set_self _ _ _ hidx
  have hlenD : vp.x_screen_num
      < (delViewPort (addViewPort t vp).1 vp).1.x_screen_count.length := by
    rw [hDx, List.length_set]
    exact hlen
  have hgD : (delViewPort (addViewPort t vp).1 vp).1.x_screen_count.getD vp.x_screen_num 0
      = t.x_screen_count.getD vp.x_screen_num 0 + 1 + (-1) := by
    rw [hDx, getD_set_self _ _ _ hlen, hgA]
  refine ⟨?_, ?_, ?_, ?_, ?_⟩
  · rw [heq, hSp, hDp, herase, hAp]
  · rw [heq, hSx, hgD, hDx, hgA, hAx]
    rw [List.set_set, List.set_set]
    congr 1
    ring
  · rw [heq, hSp, hDp, herase, List.count_append]
    simp [List.count_eq_zero.mpr hnm]
  · rw [heq, hSt, hDt, hAt]
    exact countKey_alSet_self _ _ _ (keysNodup_alErase _ _ (keysNodup_alSet _ _ _ h2))
  · rw [heq, hSx, getD_set_self _ _ _ hlenD, hgD, hgA]
    ring

end MultiFork

namespace MultiFork

/-- C6: for a chain with well-formed viewport bookkeeping, calling
`addViewPort(vp)` twice in a row is equivalent, on the observables the
claim names, to `delViewPort(vp)` once followed by `addViewPort(vp)`
once: the final port list and per-screen counters coincide, `vp` is
tracked exactly once, holds exactly one token, and the per-renderer
client count for `vp`'s screen equals its value after a single add. -/
theorem C6_add_twice_is_move (s : ChainState) (vp : ViewPort)
    (h1 : s.ports.Nodup) (h2 : keysNodup s.tokens_by_port)
    (hidx : vp.x_screen_num < s.x_screen_count.length) :
    (addViewPort (addViewPort s vp).1 vp).1.ports
        = (addViewPort (delViewPort s vp).1 vp).1.ports
    ∧ (addViewPort (addViewPort s vp).1 vp).1.x_screen_count
        = (addViewPort (delViewPort s vp).1 vp).1.x_screen_count
    ∧ (addViewPort (addViewPort s vp).1 vp).1.ports.count vp = 1
    ∧ countKey (addViewPort (addViewPort s vp).1 vp).1.tokens_by_port vp = 1
    ∧ (addViewPort (addViewPort s vp).1 vp).1.x_screen_count.getD vp.x_screen_num 0
        = (addViewPort s vp).1.x_screen_count.getD vp.x_screen_num 0 := by
  by_cases hm : vp ∈ s.ports
  · have hnm := delViewPort_not_mem_self s vp h1
    have heq := addViewPort_mem_del s vp hm hnm
    obtain ⟨hp, ht, hn, hx⟩ := delViewPort_effect s vp hm
    have h1t : (delViewPort s vp).1.ports.Nodup := by
      rw [hp]
      exact h1.erase vp
    have h2t : keysNodup (delViewPort s vp).1.tokens_by_port := by
      rw [ht]
      exact keysNodup_alErase _ _ h2
    have hidxt : vp.x_screen_num < (delViewPort s vp).1.x_screen_count.length := by
      rw [hx, List.length_set]
      exact hidx
    rw [heq]
    exact add_twice_aux (delViewPort s vp).1 vp hnm h1t h2t hidxt
  · have hdel : (delViewPort s vp).1 = s := by
      unfold delViewPort
      rw [if_neg hm]
    rw [hdel]
    exact add_twice_aux s vp hm h1 h2 hidx

/-- Witness for C6 on a freshly constructed chain. -/
theorem C6_add_twice_is_move_witness :
    (addViewPort (addViewPort (initState 1 "chain" 1) ⟨5, 0⟩).1 ⟨5, 0⟩).1.ports
        = (addViewPort (delViewPort (initState 1 "chain" 1) ⟨5, 0⟩).1 ⟨5, 0⟩).1.ports
    ∧ (addViewPort (addViewPort (initState 1 "chain" 1) ⟨5, 0⟩).1 ⟨5, 0⟩).1.x_screen_count
        = (addViewPort (delViewPort (initState 1 "chain" 1) ⟨5, 0⟩).1 ⟨5, 0⟩).1.x_screen_count
    ∧ (addViewPort (addViewPort (initState 1 "chain" 1) ⟨5, 0⟩).1 ⟨5, 0⟩).1.ports.count ⟨5, 0⟩ = 1
    ∧ countKey (addViewPort (addViewPort (initState 1 "chain" 1) ⟨5, 0⟩).1
        ⟨5, 0⟩).1.tokens_by_port ⟨5, 0⟩ = 1
    ∧ (addViewPort (addViewPort (initState 1 "chain" 1) ⟨5, 0⟩).1
          ⟨5, 0⟩).1.x_screen_count.getD 0 0
        = (addViewPort (initState 1 "chain" 1) ⟨5, 0⟩).1.x_screen_count.getD 0 0 :=
  C6_add_twice_is_move (initState 1 "chain" 1) ⟨5, 0⟩ (by decide) (by simp [keysNodup, initState]) (by decide)

end MultiFork
